/-
Verification of the diagonal-spread scanner
(src/projects/Schwab_API_Diagonal_Spread_Scanner.py) against its
natural-language specification.

The script is shallowly embedded: JSON response bodies become an inductive
`Json` type, the Python dict/list operations used by the script become
functions in `Except PyErr` (modelling the exceptions Python would raise),
and the per-ticker loop becomes a fold over the ticker list in which an
uncaught exception aborts the whole run, exactly as an uncaught Python
exception would.
-/
import Mathlib

namespace Scanner

/-- A JSON value as produced by `response.json()`.  Python `None` is
`Json.null`; the script also uses `None` as the "no price found yet"
sentinel, so the extractor's running value is a `Json` initialised to
`Json.null`.  Object fields keep source order, as Python dicts do. -/
inductive Json where
  | null : Json
  | bool (b : Bool) : Json
  | num (q : ℚ) : Json
  | str (s : String) : Json
  | arr (elems : List Json) : Json
  | obj (fields : List (String × Json)) : Json
deriving Repr

/-- Exceptions the embedded fragment of Python can raise. -/
inductive PyErr where
  | attributeError : PyErr
  | typeError : PyErr
  | keyError : PyErr
  | zeroDivisionError : PyErr
  | jsonDecodeError : PyErr
deriving Repr, DecidableEq

/-- `is None` test (only a `null` check is needed by the script). -/
def Json.isNull : Json → Bool
  | .null => true
  | _ => false

/-- First binding of a key in a field list, as Python dict lookup. -/
def lookupField (fields : List (String × Json)) (k : String) : Option Json :=
  match fields with
  | [] => none
  | (k', v) :: rest => if k' = k then some v else lookupField rest k

/-- Python truthiness of a JSON value (`if week_last_price and ...`). -/
def pyTruthy : Json → Bool
  | .null => false
  | .bool b => b
  | .num q => q ≠ 0
  | .str s => s ≠ ""
  | .arr elems => !elems.isEmpty
  | .obj fields => !fields.isEmpty

/-- `d.get(k, default)`: dict lookup with default; any non-dict receiver
raises `AttributeError`. -/
def pyGet (j : Json) (k : String) (default : Json) : Except PyErr Json :=
  match j with
  | .obj fields => .ok ((lookupField fields k).getD default)
  | _ => .error .attributeError

/-- `d.items()`: the field list of a dict; any non-dict raises
`AttributeError`. -/
def pyItems (j : Json) : Except PyErr (List (String × Json)) :=
  match j with
  | .obj fields => .ok fields
  | _ => .error .attributeError

/-- `for x in j`: iteration order of a Python value — list elements, the
characters of a string (as one-character strings), the keys of a dict;
numbers, booleans and `None` raise `TypeError`. -/
def pyIter (j : Json) : Except PyErr (List Json) :=
  match j with
  | .arr elems => .ok elems
  | .str s => .ok (s.data.map fun c => .str (String.mk [c]))
  | .obj fields => .ok (fields.map fun p => .str p.1)
  | _ => .error .typeError

/-- Substring test on character lists (Python `"last" in string`). -/
def hasSublist (pat : List Char) : List Char → Bool
  | [] => pat.isEmpty
  | c :: cs => List.isPrefixOf pat (c :: cs) || hasSublist pat cs

/-- `k in j` for a string `k`: key test on dicts, membership on lists
(a string can only equal a string element), substring test on strings;
`TypeError` otherwise. -/
def pyContains (k : String) (j : Json) : Except PyErr Bool :=
  match j with
  | .obj fields => .ok (fields.any fun p => p.1 = k)
  | .arr elems => .ok (elems.any fun e => match e with
      | .str s => s = k
      | _ => false)
  | .str s => .ok (hasSublist k.data s.data)
  | _ => .error .typeError

/-- `j[k]` for a string key: dict indexing (`KeyError` when absent),
`TypeError` on any other receiver. -/
def pyIndex (j : Json) (k : String) : Except PyErr Json :=
  match j with
  | .obj fields =>
    match lookupField fields k with
    | some v => .ok v
    | none => .error .keyError
  | _ => .error .typeError

/-- Python true division restricted to the values the script divides:
two numbers divide as rationals (`ZeroDivisionError` on a zero divisor);
any other operand pair raises `TypeError`. -/
def pyDiv (a b : Json) : Except PyErr ℚ :=
  match a, b with
  | .num x, .num y => if y = 0 then .error .zeroDivisionError else .ok (x / y)
  | _, _ => .error .typeError

/-- The innermost loop of the extraction (lines 93–96 / 113–116 of the
source): `for option in options_list: if "last" in option:
price = option["last"]; break`.  `cur` is the running price variable;
the loop stops at the first record whose key test succeeds, whatever
the value stored under the key. -/
def scanOptions (cur : Json) : List Json → Except PyErr Json
  | [] => .ok cur
  | o :: os =>
    match pyContains "last" o with
    | .error e => .error e
    | .ok true => pyIndex o "last"
    | .ok false => scanOptions cur os

/-- The middle loop (lines 92–96 / 112–116): `for strike_key, options_list
in strikes.items(): ...`.  Note there is no `break` at this level in the
source: every strike of the expiration is visited, each eligible strike
overwriting the running price. -/
def scanStrikeList (cur : Json) : List (String × Json) → Except PyErr Json
  | [] => .ok cur
  | (_, optionsList) :: rest =>
    match pyIter optionsList with
    | .error e => .error e
    | .ok opts =>
      match scanOptions cur opts with
      | .error e => .error e
      | .ok cur' => scanStrikeList cur' rest

/-- The outer loop (lines 91–98 / 111–118): `for exp_date_key, strikes in
call_exp_date_map.items(): ...` followed by
`if week_last_price is not None: break`. -/
def scanExpList (cur : Json) : List (String × Json) → Except PyErr Json
  | [] => .ok cur
  | (_, strikes) :: rest =>
    match pyItems strikes with
    | .error e => .error e
    | .ok strikeItems =>
      match scanStrikeList cur strikeItems with
      | .error e => .error e
      | .ok cur' => if cur'.isNull then scanExpList cur' rest else .ok cur'

/-- The whole price-extraction fragment (lines 89–98, and identically
109–118): start from `None`, take
`response_data.get("callExpDateMap", {})` and run the three nested loops.
The result is the final value of `week_last_price` / `year_last_price`
(`Json.null` when nothing was found), or the Python exception raised. -/
def extract_last_price (response_data : Json) : Except PyErr Json :=
  match pyGet response_data "callExpDateMap" (.obj []) with
  | .error e => .error e
  | .ok m =>
    match pyItems m with
    | .error e => .error e
    | .ok expItems => scanExpList .null expItems

/-- Lines 120–122: the guarded ratio.  `none` is the `else` branch
(no `spread_ratio` computed); the guard is Python truthiness of the two
prices, and the division itself can raise on non-numeric prices. -/
def spread_ratio (week_last_price year_last_price : Json) :
    Except PyErr (Option ℚ) :=
  if pyTruthy week_last_price && pyTruthy year_last_price then
    match pyDiv year_last_price week_last_price with
    | .error e => .error e
    | .ok q => .ok (some q)
  else .ok none

/-- One entry of the `tickers` list.  `pd.read_csv` can yield non-string
entries (e.g. numbers); the loop tests `isinstance(ticker, str)`. -/
inductive PyVal where
  | str (s : String) : PyVal
  | intVal (n : ℤ) : PyVal
deriving Repr, DecidableEq

/-- `ticker.upper()` (line 74): Python's uppercasing, modelled
character-wise (ticker symbols are ASCII). -/
def pyUpper (s : String) : String := String.mk (s.data.map Char.toUpper)

/-- Outcome of one `requests.get`: the HTTP status code and the result of
`response.json()` — which itself raises when the body is not valid
JSON. -/
structure FetchResult where
  status : ℕ
  body : Except PyErr Json

/-- A row appended to `results_df` (lines 124–129). -/
structure ScanRecord where
  ticker : String
  week_last_price : Json
  year_last_price : Json
  ratio : ℚ

/-- One iteration of the ticker loop (lines 69–133).  `fetch t` gives the
short-term and long-term responses for the (uppercased) ticker `t`, since
both request URLs are functions of the uppercased ticker.  `.ok none`
models a `continue`/skip (non-string entry, non-200 status, missing
data); `.ok (some r)` models appending row `r`; `.error e` models an
uncaught Python exception escaping the loop body. -/
def processTicker (fetch : String → FetchResult × FetchResult) :
    PyVal → Except PyErr (Option ScanRecord)
  | .intVal _ => .ok none
  | .str s =>
    let t := pyUpper s
    let nearR := (fetch t).1
    let farR := (fetch t).2
    if nearR.status = 200 then
      match nearR.body with
      | .error e => .error e
      | .ok nearBody =>
        match extract_last_price nearBody with
        | .error e => .error e
        | .ok wk =>
          if farR.status = 200 then
            match farR.body with
            | .error e => .error e
            | .ok farBody =>
              match extract_last_price farBody with
              | .error e => .error e
              | .ok yr =>
                match spread_ratio wk yr with
                | .error e => .error e
                | .ok (some q) => .ok (some ⟨t, wk, yr, q⟩)
                | .ok none => .ok none
          else .ok none
    else .ok none

/-- The whole ticker loop: tickers are processed in order, each skip
leaves the accumulator unchanged, each emitted row is appended, and an
uncaught exception aborts the run (no rows survive, as the script dies
before reaching the sort). -/
def runScan (fetch : String → FetchResult × FetchResult) :
    List PyVal → Except PyErr (List ScanRecord)
  | [] => .ok []
  | t :: ts =>
    match processTicker fetch t with
    | .error e => .error e
    | .ok res =>
      match runScan fetch ts with
      | .error e => .error e
      | .ok rest =>
        .ok (match res with
          | some r => r :: rest
          | none => rest)

/-- Lines 33–38: the two date windows, with dates modelled as day numbers
(an integer day offset from a fixed epoch); `timedelta(days = n)` is
`+ n`.  The `strftime('%Y-%m-%d')` formatting is order-preserving, so the
day-number model captures the date comparisons. -/
def one_week_date (today : ℤ) : ℤ := today + 6

/-- Line 34: end of the short-term window. -/
def one_week_date2 (today : ℤ) : ℤ := today + 11

/-- Line 37: start of the long-term window. -/
def one_year_date (today : ℤ) : ℤ := today + 330

/-- Line 38: end of the long-term window. -/
def one_year_date2 (today : ℤ) : ℤ := today + 600

/-- The near-term window as an inclusive date pair. -/
def near_window (today : ℤ) : ℤ × ℤ := (one_week_date today, one_week_date2 today)

/-- The far-term window as an inclusive date pair. -/
def far_window (today : ℤ) : ℤ × ℤ := (one_year_date today, one_year_date2 today)

/-- The full pipeline up to the output sink: run the scan, then sort the
accumulated rows (line 136).  `sortImpl` is the sorting routine supplied
by the pandas library (`sort_values(by='Spread_Ratio', ascending=True)`);
it is a parameter because its tie-breaking is library-internal, but any
one run of the script uses one fixed routine. -/
def pipeline (sortImpl : List ScanRecord → List ScanRecord)
    (fetch : String → FetchResult × FetchResult) (tickers : List PyVal) :
    Except PyErr (List ScanRecord) :=
  match runScan fetch tickers with
  | .error e => .error e
  | .ok records => .ok (sortImpl records)

/-- What `sort_values(by='Spread_Ratio', ascending=True)` guarantees of
its output: a permutation of the input rows that is non-decreasing in the
sort key.  The pandas default kind `'quicksort'` promises nothing about
the relative order of tied rows. -/
def IsSortValuesOutput (input output : List ScanRecord) : Prop :=
  input.Perm output ∧ output.Sorted (fun a b => a.ratio ≤ b.ratio)

/-- A chain with one expiration and two strikes: the earlier strike's
record carries last-traded price 1, the later strike's carries 2. -/
def chainTwoStrikes : Json := .obj [("callExpDateMap", .obj [
  ("2024-10-18:6", .obj [
    ("150.0", .arr [.obj [("last", .num 1)]]),
    ("155.0", .arr [.obj [("last", .num 2)]])])])]

/-- A chain whose single strike's first record carries `"last": None` and
whose second record carries a numeric last-traded price. -/
def chainNullThenNum : Json := .obj [("callExpDateMap", .obj [
  ("2024-10-18:6", .obj [
    ("150.0", .arr [.obj [("last", .null)], .obj [("last", .num 5)]])])])]

/-- A chain whose single strike's first record lacks the `"last"` key
entirely and whose second record carries a numeric last-traded price. -/
def chainMissingThenNum : Json := .obj [("callExpDateMap", .obj [
  ("2024-10-18:6", .obj [
    ("150.0", .arr [.obj [("bid", .num 3)], .obj [("last", .num 5)]])])])]

/-- An unremarkable short-term chain: one expiration, one strike, one
record with last-traded price 1. -/
def goodChainW : Json := .obj [("callExpDateMap", .obj [
  ("2024-10-18:6", .obj [("150.0", .arr [.obj [("last", .num 1)]])])])]

/-- An unremarkable long-term chain with last-traded price 2. -/
def goodChainY : Json := .obj [("callExpDateMap", .obj [
  ("2025-10-17:370", .obj [("150.0", .arr [.obj [("last", .num 2)]])])])]

/-- A short-term chain whose last-traded price is negative. -/
def negChainW : Json := .obj [("callExpDateMap", .obj [
  ("2024-10-18:6", .obj [("150.0", .arr [.obj [("last", .num (-2))]])])])]

/-- A long-term chain with last-traded price 10. -/
def negChainY : Json := .obj [("callExpDateMap", .obj [
  ("2025-10-17:370", .obj [("150.0", .arr [.obj [("last", .num 10)]])])])]

/-- A parsed 200-response whose `callExpDateMap` is a string rather than
a mapping — structurally malformed but valid JSON. -/
def malformedBody : Json := .obj [("callExpDateMap", .str "oops")]

/-- A fetch oracle that answers every ticker with the unremarkable
chains. -/
def fetchGood : String → FetchResult × FetchResult :=
  fun _ => (⟨200, .ok goodChainW⟩, ⟨200, .ok goodChainY⟩)

/-- A fetch oracle whose short-term response for ticker `"AAA"` is 200
with a malformed body; every other ticker gets the unremarkable
chains. -/
def fetchMal : String → FetchResult × FetchResult := fun t =>
  if t = "AAA" then (⟨200, .ok malformedBody⟩, ⟨200, .ok goodChainY⟩)
  else (⟨200, .ok goodChainW⟩, ⟨200, .ok goodChainY⟩)

/-- A fetch oracle that answers every ticker with a negative short-term
price and a positive long-term price. -/
def fetchNeg : String → FetchResult × FetchResult :=
  fun _ => (⟨200, .ok negChainW⟩, ⟨200, .ok negChainY⟩)

/-- A fetch oracle whose short-term request always fails with HTTP 404
(a transport error: no body is ever parsed). -/
def fetch404 : String → FetchResult × FetchResult :=
  fun _ => (⟨404, .ok .null⟩, ⟨404, .ok .null⟩)

/-- `isOk` on the embedded Python computations: no exception was raised. -/
def isOk {α : Type} : Except PyErr α → Bool
  | .ok _ => true
  | .error _ => false

/-- A record the extraction loop can probe safely: a JSON object (any
fields, the "last" field may be absent). -/
def isWFRecord : Json → Bool
  | .obj _ => true
  | _ => false

/-- A strike's value: a list of record objects (possibly empty). -/
def isWFOptionsList : Json → Bool
  | .arr elems => elems.all isWFRecord
  | _ => false

/-- An expiration's value: a mapping from strike keys to record lists
(possibly empty). -/
def isWFStrikes : Json → Bool
  | .obj fields => fields.all fun p => isWFOptionsList p.2
  | _ => false

/-- The `callExpDateMap` value: a mapping from expiration keys to strike
mappings (possibly empty). -/
def isWFExpMap : Json → Bool
  | .obj fields => fields.all fun p => isWFStrikes p.2
  | _ => false

/-- A structurally well-formed chain response: a JSON object whose
`callExpDateMap` field, when present, nests mappings of mappings of
record-object lists.  Every level may be empty, the outer field may be
missing entirely, and records may lack the price field — these are the
spec's "malformed shapes". -/
def isWFChain : Json → Bool
  | .obj fields =>
    match lookupField fields "callExpDateMap" with
    | none => true
    | some m => isWFExpMap m
  | _ => false

end Scanner

namespace Scanner

theorem lookupField_isSome_of_any (fields : List (String × Json)) (k : String)
    (h : (fields.any fun p => p.1 = k) = true) :
    ∃ v, lookupField fields k = some v := by
  induction fields with
  | nil => simp at h
  | cons p rest ih =>
    by_cases hk : p.1 = k
    · exact ⟨p.2, by simp [lookupField, hk]⟩
    · simp only [List.any_cons, Bool.or_eq_true, decide_eq_true_eq] at h
      rcases h with h | h
      · exact absurd h hk
      · obtain ⟨v, hv⟩ := ih (by simpa using h)
        exact ⟨v, by simp [lookupField, hk, hv]⟩

theorem pyIndex_isOk_of_contains (fs : List (String × Json))
    (h : (fs.any fun p => p.1 = "last") = true) :
    isOk (pyIndex (.obj fs) "last") = true := by
  obtain ⟨v, hv⟩ := lookupField_isSome_of_any fs "last" h
  simp [pyIndex, hv, isOk]

theorem scanOptions_isOk (os : List Json)
    (h : ∀ o ∈ os, isWFRecord o = true) :
    ∀ cur, isOk (scanOptions cur os) = true := by
  induction os with
  | nil => intro cur; rfl
  | cons o rest ih =>
    intro cur
    have ho : isWFRecord o = true := h o (by simp)
    cases o with
    | obj fs =>
      simp only [scanOptions, pyContains]
      cases hany : (fs.any fun p => p.1 = "last") with
      | true => exact pyIndex_isOk_of_contains fs hany
      | false => exact ih (fun o' ho' => h o' (by simp [ho'])) cur
    | null => simp [isWFRecord] at ho
    | bool b => simp [isWFRecord] at ho
    | num q => simp [isWFRecord] at ho
    | str s => simp [isWFRecord] at ho
    | arr es => simp [isWFRecord] at ho

theorem scanStrikeList_isOk (items : List (String × Json))
    (h : ∀ p ∈ items, isWFOptionsList p.2 = true) :
    ∀ cur, isOk (scanStrikeList cur items) = true := by
  induction items with
  | nil => intro cur; rfl
  | cons p rest ih =>
    intro cur
    obtain ⟨k, ol⟩ := p
    have hol : isWFOptionsList ol = true := h (k, ol) (by simp)
    cases ol with
    | arr elems =>
      have hrec : ∀ o ∈ elems, isWFRecord o = true := by
        simpa [isWFOptionsList, List.all_eq_true] using hol
      have h1 := scanOptions_isOk elems hrec cur
      simp only [scanStrikeList, pyIter]
      cases hs : scanOptions cur elems with
      | error e => rw [hs] at h1; simp [isOk] at h1
      | ok cur' => exact ih (fun q hq => h q (by simp [hq])) cur'
    | null => simp [isWFOptionsList] at hol
    | bool b => simp [isWFOptionsList] at hol
    | num q => simp [isWFOptionsList] at hol
    | str s => simp [isWFOptionsList] at hol
    | obj fs => simp [isWFOptionsList] at hol

theorem scanExpList_isOk (items : List (String × Json))
    (h : ∀ p ∈ items, isWFStrikes p.2 = true) :
    ∀ cur, isOk (scanExpList cur items) = true := by
  induction items with
  | nil => intro cur; rfl
  | cons p rest ih =>
    intro cur
    obtain ⟨k, strikes⟩ := p
    have hst : isWFStrikes strikes = true := h (k, strikes) (by simp)
    cases strikes with
    | obj sfs =>
      have hol : ∀ q ∈ sfs, isWFOptionsList q.2 = true := by
        simpa [isWFStrikes, List.all_eq_true] using hst
      have h1 := scanStrikeList_isOk sfs hol cur
      simp only [scanExpList, pyItems]
      cases hs : scanStrikeList cur sfs with
      | error e => rw [hs] at h1; simp [isOk] at h1
      | ok cur' =>
        cases hn : cur'.isNull with
        | true => simp only [hn]; exact ih (fun q hq => h q (by simp [hq])) cur'
        | false => simp [hn, isOk]
    | null => simp [isWFStrikes] at hst
    | bool b => simp [isWFStrikes] at hst
    | num q => simp [isWFStrikes] at hst
    | str s => simp [isWFStrikes] at hst
    | arr es => simp [isWFStrikes] at hst

theorem extract_isOk_of_isWFChain (j : Json) (h : isWFChain j = true) :
    isOk (extract_last_price j) = true := by
  cases j with
  | obj fs =>
    simp only [extract_last_price, pyGet]
    cases hl : lookupField fs "callExpDateMap" with
    | none => simp [Option.getD, pyItems, scanExpList, isOk, hl]
    | some m =>
      have hm : isWFExpMap m = true := by
        simpa [isWFChain, hl] using h
      cases m with
      | obj efs =>
        have hs : ∀ p ∈ efs, isWFStrikes p.2 = true := by
          simpa [isWFExpMap, List.all_eq_true] using hm
        simpa [hl, Option.getD, pyItems] using scanExpList_isOk efs hs .null
      | null => simp [isWFExpMap] at hm
      | bool b => simp [isWFExpMap] at hm
      | num q => simp [isWFExpMap] at hm
      | str s => simp [isWFExpMap] at hm
      | arr es => simp [isWFExpMap] at hm
  | null => simp [isWFChain] at h
  | bool b => simp [isWFChain] at h
  | num q => simp [isWFChain] at h
  | str s => simp [isWFChain] at h
  | arr es => simp [isWFChain] at h

theorem runScan_cons_skip (fetch : String → FetchResult × FetchResult)
    (t : PyVal) (ts : List PyVal)
    (h : processTicker fetch t = .ok none) :
    runScan fetch (t :: ts) = runScan fetch ts := by
  cases hr : runScan fetch ts with
  | error e => simp [runScan, h, hr]
  | ok rest => simp [runScan, h, hr]

theorem spread_ratio_some (wk yr : Json) (q : ℚ)
    (h : spread_ratio wk yr = .ok (some q)) :
    pyTruthy wk = true ∧ pyTruthy yr = true ∧ pyDiv yr wk = .ok q := by
  by_cases hg : (pyTruthy wk && pyTruthy yr) = true
  · rcases Bool.and_eq_true _ _ |>.mp hg with ⟨h1, h2⟩
    refine ⟨h1, h2, ?_⟩
    simp only [spread_ratio, hg, if_true] at h
    cases hd : pyDiv yr wk with
    | error e => rw [hd] at h; cases h
    | ok q' => rw [hd] at h; cases h; rfl
  · simp [spread_ratio, hg] at h

theorem processTicker_near_transport (fetch : String → FetchResult × FetchResult)
    (s : String) (h : (fetch (pyUpper s)).1.status ≠ 200) :
    processTicker fetch (.str s) = .ok none := by
  simp [processTicker, h]

theorem processTicker_far_transport (fetch : String → FetchResult × FetchResult)
    (s : String) (nearBody wk : Json)
    (h1 : (fetch (pyUpper s)).1.status = 200)
    (h2 : (fetch (pyUpper s)).1.body = .ok nearBody)
    (h3 : extract_last_price nearBody = .ok wk)
    (h4 : (fetch (pyUpper s)).2.status ≠ 200) :
    processTicker fetch (.str s) = .ok none := by
  simp [processTicker, h1, h2, h3, h4]

theorem processTicker_missing_data (fetch : String → FetchResult × FetchResult)
    (s : String) (nearBody farBody wk yr : Json)
    (h1 : (fetch (pyUpper s)).1.status = 200)
    (h2 : (fetch (pyUpper s)).1.body = .ok nearBody)
    (h3 : extract_last_price nearBody = .ok wk)
    (h4 : (fetch (pyUpper s)).2.status = 200)
    (h5 : (fetch (pyUpper s)).2.body = .ok farBody)
    (h6 : extract_last_price farBody = .ok yr)
    (h7 : spread_ratio wk yr = .ok none) :
    processTicker fetch (.str s) = .ok none := by
  simp [processTicker, h1, h2, h3, h4, h5, h6, h7]

theorem runScan_ok_eq_filterMap (fetch : String → FetchResult × FetchResult)
    (ts : List PyVal) (recs : List ScanRecord)
    (h : runScan fetch ts = .ok recs) :
    recs = ts.filterMap fun t =>
      match processTicker fetch t with
      | .ok (some r) => some r
      | _ => none := by
  induction ts generalizing recs with
  | nil => simp only [runScan] at h; cases h; rfl
  | cons t rest ih =>
    simp only [runScan] at h
    cases hp : processTicker fetch t with
    | error e => rw [hp] at h; cases h
    | ok res =>
      rw [hp] at h
      cases hr : runScan fetch rest with
      | error e => rw [hr] at h; cases h
      | ok tail =>
        rw [hr] at h
        cases res with
        | none => cases h; simpa [List.filterMap_cons, hp] using ih tail hr
        | some r =>
          cases h
          simp only [List.filterMap_cons, hp]
          exact congrArg (r :: ·) (ih tail hr)

theorem processTicker_emits (fetch : String → FetchResult × FetchResult)
    (s : String) (r : ScanRecord)
    (h : processTicker fetch (.str s) = .ok (some r)) :
    r.ticker = pyUpper s ∧
    (fetch (pyUpper s)).1.status = 200 ∧
    (fetch (pyUpper s)).2.status = 200 ∧
    (∃ nearBody, (fetch (pyUpper s)).1.body = .ok nearBody ∧
       extract_last_price nearBody = .ok r.week_last_price) ∧
    (∃ farBody, (fetch (pyUpper s)).2.body = .ok farBody ∧
       extract_last_price farBody = .ok r.year_last_price) ∧
    pyTruthy r.week_last_price = true ∧
    pyTruthy r.year_last_price = true ∧
    pyDiv r.year_last_price r.week_last_price = .ok r.ratio := by
  simp only [processTicker] at h
  split at h
  case isFalse h1 => simp at h
  case isTrue h1 =>
  split at h
  next e hb1 => simp at h
  next nearBody hb1 =>
  split at h
  next e he1 => simp at h
  next wk he1 =>
  split at h
  case isFalse h2 => simp at h
  case isTrue h2 =>
  split at h
  next e hb2 => simp at h
  next farBody hb2 =>
  split at h
  next e he2 => simp at h
  next yr he2 =>
  split at h
  next e hsr => simp at h
  next q hsr =>
    injection h with h'
    injection h' with h''
    subst h''
    obtain ⟨hw, hy, hd⟩ := spread_ratio_some wk yr q hsr
    exact ⟨rfl, h1, h2, ⟨nearBody, hb1, he1⟩, ⟨farBody, hb2, he2⟩, hw, hy, hd⟩
  next hsr => simp at h

theorem runScan_cons_error (fetch : String → FetchResult × FetchResult)
    (t : PyVal) (ts : List PyVal) (e : PyErr)
    (h : processTicker fetch t = .error e) :
    runScan fetch (t :: ts) = .error e := by
  simp [runScan, h]

theorem processTicker_parse_error (fetch : String → FetchResult × FetchResult)
    (s : String) (e : PyErr)
    (h1 : (fetch (pyUpper s)).1.status = 200)
    (h2 : (fetch (pyUpper s)).1.body = .error e) :
    processTicker fetch (.str s) = .error e := by
  simp [processTicker, h1, h2]

theorem extract_items_error (fields : List (String × Json)) (v : Json) (e : PyErr)
    (h1 : lookupField fields "callExpDateMap" = some v)
    (h2 : pyItems v = .error e) :
    extract_last_price (.obj fields) = .error e := by
  simp [extract_last_price, pyGet, h1, h2]

theorem processTicker_emits_of_conditions
    (fetch : String → FetchResult × FetchResult) (s : String)
    (nearBody farBody wk yr : Json) (q : ℚ)
    (h1 : (fetch (pyUpper s)).1.status = 200)
    (h2 : (fetch (pyUpper s)).1.body = .ok nearBody)
    (h3 : extract_last_price nearBody = .ok wk)
    (h4 : (fetch (pyUpper s)).2.status = 200)
    (h5 : (fetch (pyUpper s)).2.body = .ok farBody)
    (h6 : extract_last_price farBody = .ok yr)
    (h7 : pyTruthy wk = true)
    (h8 : pyTruthy yr = true)
    (h9 : pyDiv yr wk = .ok q) :
    processTicker fetch (.str s) = .ok (some ⟨pyUpper s, wk, yr, q⟩) := by
  simp [processTicker, h1, h2, h3, h4, h5, h6, spread_ratio, h7, h8, h9]

end Scanner

namespace Scanner

/-- C1 (counterexample).  The claim says the extractor returns the price
of the first record encountered (expirations, then strikes, then records,
in source order), so an earlier strike's price is never displaced by a
later strike's.  On a chain with one expiration and two strikes whose
records carry prices 1 and 2 respectively, the code returns 2, the later
strike's price, not 1. -/
theorem claim_C1_counterexample :
    extract_last_price chainTwoStrikes = .ok (.num 2) ∧
    extract_last_price chainTwoStrikes ≠ .ok (.num 1) := by
  constructor
  · rfl
  · intro h
    rw [show extract_last_price chainTwoStrikes = .ok (.num 2) from rfl] at h
    simp only [Except.ok.injEq, Json.num.injEq] at h
    norm_num at h

/-- C1 (amended).  The extractor traverses expiration keys in source
order and stops after the first expiration whose scan found a value, but
within an expiration it visits every strike, each strike's first
price-bearing record overwriting the running value — so within an
expiration the last eligible strike wins, while within a single strike
the first record carrying the field wins. -/
theorem claim_C1_amended :
    (∀ (expKey strike1 strike2 : String) (v1 v2 : ℚ),
      extract_last_price (.obj [("callExpDateMap", .obj [(expKey, .obj [
        (strike1, .arr [.obj [("last", .num v1)]]),
        (strike2, .arr [.obj [("last", .num v2)]])])])]) = .ok (.num v2)) ∧
    (∀ (expKey1 expKey2 strike1 strike2 : String) (v1 v2 : ℚ),
      extract_last_price (.obj [("callExpDateMap", .obj [
        (expKey1, .obj [(strike1, .arr [.obj [("last", .num v1)]])]),
        (expKey2, .obj [(strike2, .arr [.obj [("last", .num v2)]])])])]) =
        .ok (.num v1)) ∧
    (∀ (cur v : Json) (rest : List Json),
      scanOptions cur (.obj [("last", v)] :: rest) = .ok v) :=
  ⟨fun _ _ _ _ _ => rfl, fun _ _ _ _ _ _ => rfl, fun _ _ _ => rfl⟩

/-- C2 (counterexample).  The claim says the ratio is absent whenever an
input is not positive.  For near price −2 and far price 10 — both
truthy in Python — the code computes the ratio −5 instead of skipping. -/
theorem claim_C2_counterexample :
    spread_ratio (.num (-2)) (.num 10) = .ok (some (-5)) ∧
    (Except.ok (some (-5 : ℚ)) : Except PyErr (Option ℚ)) ≠ .ok none := by
  constructor
  · norm_num [spread_ratio, pyDiv, pyTruthy]
  · simp

/-- C2 (amended).  Over the optional numeric inputs the computation is
completely characterised: the ratio is absent whenever either price is
absent (`None`) or zero — the Python-falsy values, whichever argument
they appear in — and for any two nonzero numeric prices it is
far_price / near_price, including for negative inputs, which yield a
(negative) ratio; in particular compute_ratio(absent, X) = absent,
compute_ratio(X, absent) = absent, compute_ratio(0, 5) = absent, and
compute_ratio(2, 10) = 5. -/
theorem claim_C2_amended :
    (∀ X : Json, spread_ratio .null X = .ok none) ∧
    (∀ X : Json, spread_ratio X .null = .ok none) ∧
    (∀ X : Json, spread_ratio (.num 0) X = .ok none) ∧
    (∀ X : Json, spread_ratio X (.num 0) = .ok none) ∧
    spread_ratio (.num 0) (.num 5) = .ok none ∧
    spread_ratio (.num 2) (.num 10) = .ok (some 5) ∧
    (∀ near far : ℚ, near ≠ 0 → far ≠ 0 →
      spread_ratio (.num near) (.num far) = .ok (some (far / near))) := by
  refine ⟨fun X => rfl, fun X => ?_, fun X => ?_, fun X => ?_, ?_, ?_,
    fun near far hn hf => ?_⟩
  · simp [spread_ratio, pyTruthy]
  · norm_num [spread_ratio, pyTruthy]
  · norm_num [spread_ratio, pyTruthy]
  · norm_num [spread_ratio, pyTruthy]
  · norm_num [spread_ratio, pyDiv, pyTruthy]
  · simp [spread_ratio, pyTruthy, pyDiv, hn, hf]

/-- C2 (witness). -/
theorem claim_C2_witness :
    spread_ratio (.num (-2)) (.num 10) = .ok (some ((10 : ℚ) / (-2))) :=
  claim_C2_amended.2.2.2.2.2.2 (-2) 10 (by norm_num) (by norm_num)

/-- C3 (counterexample).  The claim says a malformed response body never
interrupts processing of subsequent tickers.  With ticker "AAA" answered
by a 200 response whose `callExpDateMap` is a string, the scan dies with
an `AttributeError` and ticker "BBB" — which on its own would produce a
record — is never processed. -/
theorem claim_C3_counterexample :
    runScan fetchMal [.str "AAA", .str "BBB"] = .error .attributeError ∧
    runScan fetchMal [.str "BBB"] = .ok [⟨"BBB", .num 1, .num 2, 2⟩] := by
  constructor
  · rfl
  · have h : runScan fetchMal [.str "BBB"] =
        .ok [⟨"BBB", .num 1, .num 2, (2 : ℚ) / 1⟩] := rfl
    rw [h]; norm_num

/-- C3 (amended).  A transport error (non-200 status on either fetch) or
a missing-price outcome makes the orchestrator skip the ticker — no
record, no error — and the scan of the remaining tickers is unchanged.
A malformed 200 response, by contrast, can terminate the whole scan:
any per-ticker exception aborts the run with every subsequent ticker
unprocessed, and such an exception is raised whenever the 200 body is
not valid JSON or the body's `callExpDateMap` value is one whose
`.items()` call raises (any non-mapping value).  Other non-conforming
shapes need not raise — the failure isolation simply does not extend to
malformed bodies in general. -/
theorem claim_C3_amended :
    (∀ (fetch : String → FetchResult × FetchResult) (t : PyVal) (ts : List PyVal),
      processTicker fetch t = .ok none →
      runScan fetch (t :: ts) = runScan fetch ts) ∧
    (∀ (fetch : String → FetchResult × FetchResult) (s : String),
      (fetch (pyUpper s)).1.status ≠ 200 →
      processTicker fetch (.str s) = .ok none) ∧
    (∀ (fetch : String → FetchResult × FetchResult) (s : String) (nearBody wk : Json),
      (fetch (pyUpper s)).1.status = 200 →
      (fetch (pyUpper s)).1.body = .ok nearBody →
      extract_last_price nearBody = .ok wk →
      (fetch (pyUpper s)).2.status ≠ 200 →
      processTicker fetch (.str s) = .ok none) ∧
    (∀ (fetch : String → FetchResult × FetchResult) (s : String)
        (nearBody farBody wk yr : Json),
      (fetch (pyUpper s)).1.status = 200 →
      (fetch (pyUpper s)).1.body = .ok nearBody →
      extract_last_price nearBody = .ok wk →
      (fetch (pyUpper s)).2.status = 200 →
      (fetch (pyUpper s)).2.body = .ok farBody →
      extract_last_price farBody = .ok yr →
      spread_ratio wk yr = .ok none →
      processTicker fetch (.str s) = .ok none) ∧
    (∀ (fetch : String → FetchResult × FetchResult) (t : PyVal)
        (ts : List PyVal) (e : PyErr),
      processTicker fetch t = .error e →
      runScan fetch (t :: ts) = .error e) ∧
    (∀ (fetch : String → FetchResult × FetchResult) (s : String) (e : PyErr),
      (fetch (pyUpper s)).1.status = 200 →
      (fetch (pyUpper s)).1.body = .error e →
      processTicker fetch (.str s) = .error e) ∧
    (∀ (fields : List (String × Json)) (v : Json) (e : PyErr),
      lookupField fields "callExpDateMap" = some v →
      pyItems v = .error e →
      extract_last_price (.obj fields) = .error e) :=
  ⟨runScan_cons_skip, processTicker_near_transport, processTicker_far_transport,
    processTicker_missing_data, runScan_cons_error, processTicker_parse_error,
    extract_items_error⟩

/-- C3 (witness): a near-term transport failure for "XYZ" leaves the
scan of the remaining tickers untouched, while a malformed body for
"AAA" aborts the scan before "BBB" is reached. -/
theorem claim_C3_witness :
    (runScan fetch404 [.str "XYZ", .str "BBB"] = runScan fetch404 [.str "BBB"]) ∧
    runScan fetchMal [.str "AAA", .str "BBB"] = .error .attributeError :=
  ⟨claim_C3_amended.1 fetch404 (.str "XYZ") [.str "BBB"] rfl,
   claim_C3_amended.2.2.2.2.1 fetchMal (.str "AAA") [.str "BBB"] .attributeError rfl⟩

/-- C5.  For every reference date, the near-term window is
[reference+6, reference+11] and the far-term window is
[reference+330, reference+600], both inclusive; each window has
start ≤ end, and the far window starts strictly after the near window
ends. -/
theorem claim_C5 (today : ℤ) :
    near_window today = (today + 6, today + 11) ∧
    far_window today = (today + 330, today + 600) ∧
    (near_window today).1 ≤ (near_window today).2 ∧
    (far_window today).1 ≤ (far_window today).2 ∧
    (near_window today).2 < (far_window today).1 := by
  refine ⟨rfl, rfl, ?_, ?_, ?_⟩ <;>
    simp [near_window, far_window, one_week_date, one_week_date2,
      one_year_date, one_year_date2]

/-- C6.  On every structurally well-formed chain — the outer mapping may
be missing or empty, an expiration may have no strikes, a strike may
have an empty record list, and records may lack the price field — the
extractor raises no exception; each of the spec's enumerated shapes
makes the search continue (absent when nothing remains, the later
record's price when one exists). -/
theorem claim_C6 :
    (∀ chain : Json, isWFChain chain = true →
      isOk (extract_last_price chain) = true) ∧
    extract_last_price (.obj []) = .ok .null ∧
    extract_last_price (.obj [("callExpDateMap", .obj [])]) = .ok .null ∧
    extract_last_price (.obj [("callExpDateMap",
      .obj [("2024-10-18:6", .obj [])])]) = .ok .null ∧
    extract_last_price (.obj [("callExpDateMap",
      .obj [("2024-10-18:6", .obj [("150.0", .arr [])])])]) = .ok .null ∧
    extract_last_price (.obj [("callExpDateMap",
      .obj [("2024-10-18:6",
        .obj [("150.0", .arr [.obj [("bid", .num 1)]])])])]) = .ok .null ∧
    extract_last_price chainMissingThenNum = .ok (.num 5) :=
  ⟨extract_isOk_of_isWFChain, rfl, rfl, rfl, rfl, rfl, rfl⟩

/-- C6 (witness). -/
theorem claim_C6_witness :
    isWFChain chainMissingThenNum = true ∧
    isOk (extract_last_price chainMissingThenNum) = true :=
  ⟨rfl, claim_C6.1 chainMissingThenNum rfl⟩

/-- C7.  A non-string ticker entry is skipped — no record, no error, and
the scan of the remaining entries is unchanged; every string entry is
uppercased before being used for fetching (the fetch oracle is consulted
only at the uppercased symbol) and the uppercased symbol is what the
emitted record carries; in the spec's scenario ["aapl", 123, "msft"] the
non-string entry produces no record and the other two produce uppercased
records. -/
theorem claim_C7 :
    (∀ (fetch : String → FetchResult × FetchResult) (n : ℤ),
      processTicker fetch (.intVal n) = .ok none) ∧
    (∀ (fetch : String → FetchResult × FetchResult) (n : ℤ) (ts : List PyVal),
      runScan fetch (.intVal n :: ts) = runScan fetch ts) ∧
    (∀ (fetch : String → FetchResult × FetchResult) (s : String) (r : ScanRecord),
      processTicker fetch (.str s) = .ok (some r) → r.ticker = pyUpper s) ∧
    (∀ (fetch fetch' : String → FetchResult × FetchResult) (s : String),
      fetch (pyUpper s) = fetch' (pyUpper s) →
      processTicker fetch (.str s) = processTicker fetch' (.str s)) ∧
    runScan fetchGood [.str "aapl", .intVal 123, .str "msft"] =
      .ok [⟨"AAPL", .num 1, .num 2, 2⟩, ⟨"MSFT", .num 1, .num 2, 2⟩] := by
  refine ⟨fun fetch n => rfl, fun fetch n ts => ?_,
    fun fetch s r h => (processTicker_emits fetch s r h).1,
    fun fetch fetch' s h => ?_, ?_⟩
  · exact runScan_cons_skip fetch (.intVal n) ts rfl
  · simp only [processTicker, h]
  · have h : runScan fetchGood [.str "aapl", .intVal 123, .str "msft"] =
        .ok [⟨"AAPL", .num 1, .num 2, (2 : ℚ) / 1⟩,
             ⟨"MSFT", .num 1, .num 2, (2 : ℚ) / 1⟩] := rfl
    rw [h]; norm_num

/-- C7 (witness). -/
theorem claim_C7_witness :
    (⟨"AAPL", .num 1, .num 2, (2 : ℚ) / 1⟩ : ScanRecord).ticker =
      pyUpper "aapl" :=
  claim_C7.2.2.1 fetchGood "aapl" ⟨"AAPL", .num 1, .num 2, (2 : ℚ) / 1⟩ rfl

/-- C8 (counterexample).  The claim says a row appears only when the two
prices yielded a usable positive ratio.  With a negative near price −2
and far price 10 the code emits a row whose ratio −5 is not positive. -/
theorem claim_C8_counterexample :
    runScan fetchNeg [.str "NEG"] =
      .ok [⟨"NEG", .num (-2), .num 10, -5⟩] ∧
    ¬ (0 : ℚ) < -5 := by
  constructor
  · have h : runScan fetchNeg [.str "NEG"] =
        .ok [⟨"NEG", .num (-2), .num 10, (10 : ℚ) / (-2)⟩] := rfl
    rw [h]; norm_num
  · norm_num

/-- C8 (amended).  When the scan completes without an uncaught
exception, the final rows are exactly, and in order, the tickers whose
processing emitted a record, and emission is characterised in both
directions: a record is emitted if and only if both fetches returned
200 with parseable bodies, both extractions succeeded, and both
extracted prices are truthy (present and nonzero — possibly negative,
so the ratio need not be positive); every emitted row carries the
uppercased ticker, the two extracted prices, and
ratio = far_price / near_price of those two prices. -/
theorem claim_C8_amended :
    (∀ (fetch : String → FetchResult × FetchResult) (ts : List PyVal)
        (recs : List ScanRecord),
      runScan fetch ts = .ok recs →
      recs = ts.filterMap fun t =>
        match processTicker fetch t with
        | .ok (some r) => some r
        | _ => none) ∧
    (∀ (fetch : String → FetchResult × FetchResult) (s : String) (r : ScanRecord),
      processTicker fetch (.str s) = .ok (some r) →
      r.ticker = pyUpper s ∧
      (fetch (pyUpper s)).1.status = 200 ∧
      (fetch (pyUpper s)).2.status = 200 ∧
      (∃ nearBody, (fetch (pyUpper s)).1.body = .ok nearBody ∧
        extract_last_price nearBody = .ok r.week_last_price) ∧
      (∃ farBody, (fetch (pyUpper s)).2.body = .ok farBody ∧
        extract_last_price farBody = .ok r.year_last_price) ∧
      pyTruthy r.week_last_price = true ∧
      pyTruthy r.year_last_price = true ∧
      pyDiv r.year_last_price r.week_last_price = .ok r.ratio) ∧
    (∀ (fetch : String → FetchResult × FetchResult) (s : String)
        (nearBody farBody wk yr : Json) (q : ℚ),
      (fetch (pyUpper s)).1.status = 200 →
      (fetch (pyUpper s)).1.body = .ok nearBody →
      extract_last_price nearBody = .ok wk →
      (fetch (pyUpper s)).2.status = 200 →
      (fetch (pyUpper s)).2.body = .ok farBody →
      extract_last_price farBody = .ok yr →
      pyTruthy wk = true →
      pyTruthy yr = true →
      pyDiv yr wk = .ok q →
      processTicker fetch (.str s) = .ok (some ⟨pyUpper s, wk, yr, q⟩)) :=
  ⟨runScan_ok_eq_filterMap, processTicker_emits, processTicker_emits_of_conditions⟩

/-- C8 (witness): the emission conditions hold for ticker "NEG" — whose
ratio is negative — and the theorem both emits its record and places it
in the completed scan's rows. -/
theorem claim_C8_witness :
    [(⟨"NEG", .num (-2), .num 10, (10 : ℚ) / (-2)⟩ : ScanRecord)] =
      ([.str "NEG"] : List PyVal).filterMap (fun t =>
        match processTicker fetchNeg t with
        | .ok (some r) => some r
        | _ => none) ∧
    processTicker fetchNeg (.str "NEG") =
      .ok (some ⟨pyUpper "NEG", .num (-2), .num 10, (10 : ℚ) / (-2)⟩) :=
  ⟨claim_C8_amended.1 fetchNeg [.str "NEG"] _ rfl,
   claim_C8_amended.2.2 fetchNeg "NEG" negChainW negChainY (.num (-2)) (.num 10)
     ((10 : ℚ) / (-2)) rfl rfl rfl rfl rfl rfl (by norm_num [pyTruthy])
     (by norm_num [pyTruthy]) rfl⟩

/-- C9.  The per-strike loop breaks on key presence, not value
usability: when a strike's first record carrying the `"last"` key holds
`None`, the remaining records of that strike are never examined and the
extractor returns absent despite a numeric price later in the strike;
by contrast a record merely lacking the key lets the search continue to
the later record; in general a strike's first key-bearing record decides
the strike's value regardless of the records after it. -/
theorem claim_C9 :
    extract_last_price chainNullThenNum = .ok .null ∧
    extract_last_price chainMissingThenNum = .ok (.num 5) ∧
    (∀ (cur v : Json) (rest : List Json),
      scanOptions cur (.obj [("last", v)] :: rest) = .ok v) :=
  ⟨rfl, rfl, fun _ _ _ => rfl⟩

/-- C10.  The pipeline is deterministic: with the sorting routine fixed
(as it is within any deployment of the script), two runs given the same
ticker sequence and the same per-ticker fetch responses produce
identical accumulated records and identical final tables — the embedded
pipeline is a pure function of those inputs and nothing else. -/
theorem claim_C10 (sortImpl : List ScanRecord → List ScanRecord)
    (fetch fetch' : String → FetchResult × FetchResult)
    (tickers tickers' : List PyVal)
    (hf : fetch = fetch') (ht : tickers = tickers') :
    pipeline sortImpl fetch tickers = pipeline sortImpl fetch' tickers' := by
  rw [hf, ht]

/-- C10 (witness). -/
theorem claim_C10_witness :
    pipeline id fetchGood [.str "aapl"] = pipeline id fetchGood [.str "aapl"] :=
  claim_C10 id fetchGood fetchGood [.str "aapl"] [.str "aapl"] rfl rfl

end Scanner
